import Mathlib

/-
Verification of the Twitch→Discord relay bridge (src/twitch_discord_bridge.py).

The shallow embedding below translates the pure control logic of the bridge
into Lean. Network endpoints (Twitch Helix, Discord REST, the CDNs) and the
two library sinks (discord.py, twitchio) are external collaborators; the
functions that call them are modelled by passing their observable outcome as
an explicit argument (an `Except` value or a pure function), while every
state mutation and branch of the repository's own code is translated
faithfully, statement by statement.

Python floats (time.monotonic) are modelled as rationals; Python strings are
modelled as Lean strings with slicing performed on the codepoint list, with
Python slice semantics (clamping, negative indices from the end).
-/

namespace TwitchBridge

/-! ## Python string primitives -/

/-- Python `str.lower()`: a per-codepoint lowercase map (the strings the
bridge lowercases are ASCII channel and emote names, for which
`Char.toLower` agrees with Python). -/
def pyLower (s : String) : String := String.mk (s.toList.map Char.toLower)

/-! ## Data model (lines 104-124 of the source) -/

/-- StreamInfo dataclass: one instance per currently-live watched channel. -/
structure StreamInfo where
  userLogin : String
  gameName : String
  thumbnailUrl : String
  title : String
  startedAt : String
deriving DecidableEq, Repr

/-- RelayMessage dataclass: the element type of the relay queue. -/
structure RelayMessage where
  displayName : String
  channelName : String
  content : String
  emotesTag : Option String
deriving DecidableEq, Repr

/-- An inbound twitchio chat event, reduced to the fields the bridge reads:
`message.echo`, `message.content`, `message.author.display_name`
(absent author modelled as `none`), `message.channel.name`, and
`message.tags.get("emotes")`. -/
structure TwitchChatMessage where
  echo : Bool
  content : String
  authorDisplayName : Option String
  channelName : Option String
  emotesTag : Option String
deriving DecidableEq, Repr

/-- The gate-relevant shared state of `TwitchDiscordBridge` (__init__,
lines 205-222): the two stop flags, the status-known flag, the
`asyncio.Event` relay gate (a plain set/clear flag), the live-channel set,
the live-stream map, and the message queue (an in-memory FIFO). -/
structure BridgeState where
  isRelayPaused : Bool
  isLiveBlocked : Bool
  isStreamStatusKnown : Bool
  relayGate : Bool
  liveChannels : List String
  liveStreams : List (String × StreamInfo)
  messageQueue : List RelayMessage
deriving DecidableEq, Repr

/-! ## Relay gate (lines 286-301) -/

/-- `_refresh_relay_gate`: set the event iff
`status_known and not paused and not live_blocked`, else clear it. -/
def refreshRelayGate (s : BridgeState) : BridgeState :=
  if s.isStreamStatusKnown && !s.isRelayPaused && !s.isLiveBlocked then
    { s with relayGate := true }
  else
    { s with relayGate := false }

/-- `_clear_message_queue`: `get_nowait` until `QueueEmpty`, so the queue is
left empty. -/
def clearMessageQueue (s : BridgeState) : BridgeState :=
  { s with messageQueue := [] }

/-- The state built by `__init__`: all three flags start false, the queue
empty, and `_refresh_relay_gate()` is invoked once at the end (line 222). -/
def initBridgeState : BridgeState :=
  refreshRelayGate
    { isRelayPaused := false, isLiveBlocked := false, isStreamStatusKnown := false,
      relayGate := false, liveChannels := [], liveStreams := [], messageQueue := [] }

/-! ## Ingestion filter (lines 156-162 and 303-325) -/

/-- The RelayMessage built by `enqueue_twitch_message` (lines 319-324). -/
def relayOf (m : TwitchChatMessage) : RelayMessage :=
  { displayName := m.authorDisplayName.getD "Unknown"
    channelName := m.channelName.getD "UnknownChannel"
    content := m.content
    emotesTag := m.emotesTag }

/-- `enqueue_twitch_message` (lines 303-325): drop while paused or
live-blocked, drop events from any channel other than "hikakin"
(case-insensitive), otherwise append a RelayMessage to the queue. -/
def enqueueTwitchMessage (s : BridgeState) (m : TwitchChatMessage) : BridgeState :=
  if s.isRelayPaused || s.isLiveBlocked then s
  else
    let channelName := m.channelName.getD "UnknownChannel"
    if pyLower channelName != "hikakin" then s
    else { s with messageQueue := s.messageQueue ++ [relayOf m] }

/-- `TwitchMessageClient.event_message` (lines 156-162): drop echoed events
and empty-content events, then hand the event to the enqueue filter. -/
def eventMessage (s : BridgeState) (m : TwitchChatMessage) : BridgeState :=
  if m.echo then s
  else if m.content == "" then s
  else enqueueTwitchMessage s m

/-! ## Live-status monitor (lines 348-371)

`_fetch_stream_live_streams` performs the HTTP polling and either returns the
dict of live streams keyed by lowercased login, or raises; its outcome is the
`Except` argument of the tick. Every statement of the tick body after the
fetch is pure state manipulation and is translated below. The `except`
clause only logs, leaving all state unchanged. -/

/-- One fetch outcome: the live-stream dict, or the exception raised. -/
abbrev FetchOutcome := Except Unit (List (String × StreamInfo))

/-- One iteration of `_stream_status_loop` (lines 350-371).
`set(live_streams.keys())` is modelled by `dedup` of the key list. -/
def streamStatusTick (fetchResult : FetchOutcome) (s : BridgeState) : BridgeState :=
  match fetchResult with
  | .error _ => s
  | .ok liveStreams =>
      let liveChannels := (liveStreams.map Prod.fst).dedup
      let s1 := { s with liveChannels := liveChannels, liveStreams := liveStreams,
                         isLiveBlocked := !liveChannels.isEmpty,
                         isStreamStatusKnown := true }
      let s2 := if s1.isLiveBlocked then clearMessageQueue s1 else s1
      refreshRelayGate s2

/-- `self._stream_check_interval = 60` (line 213). -/
def streamCheckInterval : Nat := 60

/-- The sleep after a tick: `await asyncio.sleep(self._stream_check_interval)`
sits outside the `try`, so the full fixed interval is slept regardless of the
tick's outcome. -/
def monitorSleepSeconds (_ : FetchOutcome) : Nat := streamCheckInterval

/-- The monitor loop over a finite schedule of fetch outcomes: the loop body
never breaks or returns, so every scheduled tick runs. -/
def monitorRun (ticks : List FetchOutcome) (s : BridgeState) : BridgeState :=
  match ticks with
  | [] => s
  | t :: ts => monitorRun ts (streamStatusTick t s)

/-! ## Operator commands (lines 256-284) -/

/-- `stop_command` (lines 275-284): if already paused, reply only; otherwise
set the pause flag, refresh the gate, and clear the queue. -/
def stopCommand (s : BridgeState) : BridgeState :=
  if s.isRelayPaused then s
  else clearMessageQueue (refreshRelayGate { s with isRelayPaused := true })

/-- `start_command` (lines 256-273): a reply-only no-op unless the status is
known and the relay is paused; then drop the pause flag and refresh. -/
def startCommand (s : BridgeState) : BridgeState :=
  if !s.isStreamStatusKnown then s
  else if !s.isRelayPaused then s
  else refreshRelayGate { s with isRelayPaused := false }

/-! ## Relay loop (lines 327-337)

The loop body is `relay = await queue.get()` followed by
`try: wait-gate; resolve; format; send  finally: task_done()`.
There is no `except` clause: an exception raised by resolution, formatting or
the destination send escapes the `try` (after the `finally` runs) and
propagates out of the `while True`, terminating the task. `deliver` models
the fallible part of the body for one dequeued message. `relayRun` drains a
finite queue: it returns the messages left undelivered and the exception that
terminated the loop, if any. -/

def relayRun (deliver : RelayMessage → Except String Unit) :
    List RelayMessage → List RelayMessage × Option String
  | [] => ([], none)
  | m :: rest =>
      match deliver m with
      | .ok _ => relayRun deliver rest
      | .error e => (rest, some e)

/-- The loop the specification describes, stated from its words for
comparison: a delivery failure is logged (collected) and the loop proceeds to
dequeue the next message, so every message is processed. -/
def relayRunClaimed (deliver : RelayMessage → Except String Unit) :
    List RelayMessage → List (RelayMessage × String)
  | [] => []
  | m :: rest =>
      match deliver m with
      | .ok _ => relayRunClaimed deliver rest
      | .error e => (m, e) :: relayRunClaimed deliver rest

/-! ## Field-preservation helper lemmas -/

/-- Refreshing the gate touches only the `relayGate` field. -/
theorem refreshRelayGate_messageQueue (s : BridgeState) :
    (refreshRelayGate s).messageQueue = s.messageQueue := by
  unfold refreshRelayGate; split <;> rfl

/-- Refreshing the gate touches only the `relayGate` field. -/
theorem refreshRelayGate_isLiveBlocked (s : BridgeState) :
    (refreshRelayGate s).isLiveBlocked = s.isLiveBlocked := by
  unfold refreshRelayGate; split <;> rfl

/-! ## Claim C2 -/

/-- C2: for every combination of the three booleans, after recomputing the
gate it is open iff `status_known ∧ ¬manual_paused ∧ ¬live_blocked`; and the
initial state (status unknown) is closed. -/
theorem c2_gate_truth_table :
    (∀ s : BridgeState,
        (refreshRelayGate s).relayGate
          = (s.isStreamStatusKnown && !s.isRelayPaused && !s.isLiveBlocked))
    ∧ initBridgeState.relayGate = false := by
  constructor
  · intro s
    unfold refreshRelayGate
    cases h : (s.isStreamStatusKnown && !s.isRelayPaused && !s.isLiveBlocked) <;> simp [h]
  · rfl

/-! ## Claim C4 -/

/-- C4: a failing monitor tick leaves the whole bridge state (live-channel
set, live-stream map, live-blocked, status-known, queue, gate) unchanged; the
loop does not terminate on error but continues with the remaining schedule,
and it does so after any number of consecutive failures (no failure budget);
the sleep after a failed tick is the full fixed interval (no backoff). -/
theorem c4_monitor_error_resilience :
    ∀ (s : BridgeState) (rest : List FetchOutcome) (n : Nat),
      streamStatusTick (.error ()) s = s
      ∧ monitorRun (.error () :: rest) s = monitorRun rest s
      ∧ monitorRun (List.replicate n (.error ()) ++ rest) s = monitorRun rest s
      ∧ monitorSleepSeconds (.error ()) = streamCheckInterval := by
  intro s rest n
  refine ⟨rfl, rfl, ?_, rfl⟩
  induction n with
  | zero => rfl
  | succ k ih => rw [List.replicate_succ]; exact ih

/-! ## Claim C5 -/

/-- C5: after any monitor tick whose fetched live set is non-empty, the
message queue is exactly empty, whatever was queued before, and the
live-block flag is set. -/
theorem c5_live_flush :
    ∀ (s : BridgeState) (info : String × StreamInfo) (rest : List (String × StreamInfo)),
      (streamStatusTick (.ok (info :: rest)) s).messageQueue = []
      ∧ (streamStatusTick (.ok (info :: rest)) s).isLiveBlocked = true := by
  intro s info rest
  have hkeys : ((info :: rest).map Prod.fst).dedup ≠ [] := by
    simp [List.dedup_eq_nil]
  have hne : ((info :: rest).map Prod.fst).dedup.isEmpty = false := by
    cases h : ((info :: rest).map Prod.fst).dedup with
    | nil => exact absurd h hkeys
    | cons a l => rfl
  constructor
  · simp [streamStatusTick, hne, refreshRelayGate_messageQueue, clearMessageQueue]
  · simp [streamStatusTick, hne, refreshRelayGate_isLiveBlocked, clearMessageQueue]

/-! ## Claim C10 -/

/-- C10: the stop command, issued while not already paused, leaves the queue
empty, the pause flag set and the gate closed; while paused, every inbound
chat event leaves the state unchanged (dropped at ingestion, never enqueued);
and an empty queue stays empty across any monitor tick — so after stop the
queue is empty and stays empty until resume. -/
theorem c10_stop_destructive :
    ∀ (s : BridgeState) (m : TwitchChatMessage) (f : FetchOutcome),
      (s.isRelayPaused = false →
        (stopCommand s).messageQueue = []
        ∧ (stopCommand s).isRelayPaused = true
        ∧ (stopCommand s).relayGate = false)
      ∧ (s.isRelayPaused = true → eventMessage s m = s)
      ∧ (s.messageQueue = [] → (streamStatusTick f s).messageQueue = []) := by
  intro s m f
  refine ⟨?_, ?_, ?_⟩
  · intro hp
    unfold stopCommand clearMessageQueue refreshRelayGate
    simp [hp]
  · intro hp
    unfold eventMessage enqueueTwitchMessage
    simp [hp]
  · intro hq
    cases f with
    | error e => exact hq
    | ok ls =>
        simp only [streamStatusTick, refreshRelayGate_messageQueue]
        split
        · simp [clearMessageQueue]
        · simpa using hq

/-- C10 witness: the conjuncts of `c10_stop_destructive` applied at a
concrete state with two queued messages. -/
theorem c10_stop_destructive_witness :
    (stopCommand
      { isRelayPaused := false, isLiveBlocked := false, isStreamStatusKnown := true,
        relayGate := true, liveChannels := [], liveStreams := [],
        messageQueue := [⟨"a", "hikakin", "x", none⟩, ⟨"b", "hikakin", "y", none⟩] }).messageQueue = []
    ∧ eventMessage
        { isRelayPaused := true, isLiveBlocked := false, isStreamStatusKnown := true,
          relayGate := false, liveChannels := [], liveStreams := [], messageQueue := [] }
        { echo := false, content := "hi", authorDisplayName := some "a",
          channelName := some "hikakin", emotesTag := none }
      = { isRelayPaused := true, isLiveBlocked := false, isStreamStatusKnown := true,
          relayGate := false, liveChannels := [], liveStreams := [], messageQueue := [] } := by
  constructor
  · exact ((c10_stop_destructive _
      { echo := false, content := "hi", authorDisplayName := some "a",
        channelName := some "hikakin", emotesTag := none } (.error ())).1 rfl).1
  · exact (c10_stop_destructive _
      { echo := false, content := "hi", authorDisplayName := some "a",
        channelName := some "hikakin", emotesTag := none } (.error ())).2.1 rfl

/-! ## Claim C1 -/

/-- A delivery function that fails on the message whose content is "boom". -/
def c1Deliver : RelayMessage → Except String Unit :=
  fun m => if m.content == "boom" then .error "send failed" else .ok ()

/-- First queued message, whose delivery fails. -/
def c1Msg1 : RelayMessage :=
  { displayName := "alice", channelName := "hikakin", content := "boom", emotesTag := none }

/-- Second queued message, whose delivery would succeed. -/
def c1Msg2 : RelayMessage :=
  { displayName := "bob", channelName := "hikakin", content := "hello", emotesTag := none }

/-- C1 counterexample: with two queued messages whose first delivery fails,
the relay loop terminates with the failure instead of proceeding — the second
message is left undelivered — whereas the loop the claim describes
(`relayRunClaimed`: log the failure and continue) would process both and
leave nothing behind. So the claim that the loop survives every delivery
failure and proceeds to the next message is false on the code. -/
theorem c1_counterexample :
    relayRun c1Deliver [c1Msg1, c1Msg2] = ([c1Msg2], some "send failed")
    ∧ (relayRun c1Deliver [c1Msg1, c1Msg2]).1 ≠ []
    ∧ relayRunClaimed c1Deliver [c1Msg1, c1Msg2] = [(c1Msg1, "send failed")] := by
  refine ⟨rfl, ?_, rfl⟩
  decide

/-- C1 amended: delivery failures are neither caught nor logged by the relay
loop. A failing delivery terminates the loop: the failed message is marked
done and never retried, the raised error propagates, and the rest of the
queue is left unprocessed; a successful delivery makes the loop proceed to
the next queued message. -/
theorem c1_relay_loop_fail_stop :
    ∀ (deliver : RelayMessage → Except String Unit) (m : RelayMessage)
      (rest : List RelayMessage),
      (∀ e, deliver m = .error e → relayRun deliver (m :: rest) = (rest, some e))
      ∧ (deliver m = .ok () → relayRun deliver (m :: rest) = relayRun deliver rest) := by
  intro deliver m rest
  constructor
  · intro e h
    simp [relayRun, h]
  · intro h
    simp [relayRun, h]

/-- C1 witness: the amended theorem applied to the concrete failing delivery
and queue. -/
theorem c1_relay_loop_fail_stop_witness :
    relayRun c1Deliver [c1Msg1, c1Msg2] = ([c1Msg2], some "send failed")
    ∧ relayRun c1Deliver [c1Msg2] = relayRun c1Deliver [] := by
  exact ⟨(c1_relay_loop_fail_stop c1Deliver c1Msg1 [c1Msg2]).1 "send failed" rfl,
         (c1_relay_loop_fail_stop c1Deliver c1Msg2 []).2 rfl⟩

/-! ## Claim C6 -/

/-- The drop conditions as the claim enumerates them: echoed, empty content,
channel outside the watch/trust policy, live-blocked. Stated from the
claim's words, for comparison with the code's filter. -/
def c6DropListed (s : BridgeState) (m : TwitchChatMessage) : Bool :=
  m.echo || (m.content == "")
    || (pyLower (m.channelName.getD "UnknownChannel") != "hikakin")
    || s.isLiveBlocked

/-- A state that is manually paused but not live-blocked. -/
def c6State : BridgeState :=
  { isRelayPaused := true, isLiveBlocked := false, isStreamStatusKnown := true,
    relayGate := false, liveChannels := [], liveStreams := [], messageQueue := [] }

/-- A non-echoed, non-empty event from the watched channel. -/
def c6Msg : TwitchChatMessage :=
  { echo := false, content := "hello", authorDisplayName := some "alice",
    channelName := some "hikakin", emotesTag := none }

/-- C6 counterexample: none of the claim's enumerated drop conditions holds
for this event, yet the code drops it — the state is unchanged and nothing is
enqueued — because the filter also drops while manually paused, a condition
the claim's enumeration omits. So "enqueues exactly when none of the drop
conditions hold" is false as stated. -/
theorem c6_counterexample :
    c6DropListed c6State c6Msg = false
    ∧ eventMessage c6State c6Msg = c6State
    ∧ (eventMessage c6State c6Msg).messageQueue = [] := by
  refine ⟨by decide, by decide, by decide⟩

/-- C6 amended: the ingestion filter enqueues a RelayMessage exactly when
none of the drop conditions holds, where the drop conditions are: the event
is echoed/self-authored, its content is empty, its channel is outside the
watch/trust policy, the bridge is live-blocked, or the bridge is manually
paused; otherwise the event is dropped outright (never queued). -/
theorem c6_ingestion_filter :
    ∀ (s : BridgeState) (m : TwitchChatMessage),
      eventMessage s m =
        (if !m.echo && !(m.content == "")
            && (pyLower (m.channelName.getD "UnknownChannel") == "hikakin")
            && !s.isRelayPaused && !s.isLiveBlocked then
          { s with messageQueue := s.messageQueue ++ [relayOf m] }
        else s) := by
  intro s m
  unfold eventMessage enqueueTwitchMessage
  cases he : m.echo with
  | true => simp [he]
  | false =>
    cases hc : (m.content == "") with
    | true => simp [he, hc]
    | false =>
      cases hp : s.isRelayPaused with
      | true => simp [he, hc, hp]
      | false =>
        cases hb : s.isLiveBlocked with
        | true => simp [he, hc, hp, hb]
        | false =>
          cases hch : (pyLower (m.channelName.getD "UnknownChannel") == "hikakin") with
          | true => simp [he, hc, hp, hb, hch, bne]
          | false => simp [he, hc, hp, hb, hch, bne]

/-! ## Access token cache (lines 658-680)

`_get_app_access_token` reads `time.monotonic()` (modelled as a rational
`now`), consults the cached token and expiry, and otherwise performs the
credential-exchange POST. The POST's observable outcome is the `exchange`
argument: a raise (non-200 status, which the code turns into RuntimeError),
or the decoded JSON payload. Python truthiness of the cached/returned token
(`if self._app_access_token ...`, `if not token`) is modelled by
`pyTruthyStr`. -/

/-- Python truthiness of an optional string: `None` and `""` are falsy. -/
def pyTruthyStr : Option String → Bool
  | none => false
  | some s => !(s == "")

/-- The decoded token-endpoint payload: `access_token` may be absent or
empty (both rejected), `expires_in` defaults to 0 when absent. -/
structure TokenPayload where
  accessToken : Option String
  expiresIn : Int
deriving DecidableEq, Repr

/-- The bridge's token-cache fields `_app_access_token` and
`_app_access_token_expires_at` (initially `None` and `0.0`, lines 215-216). -/
structure TokenState where
  appAccessToken : Option String
  expiresAt : ℚ
deriving DecidableEq, Repr

/-- The observable outcome of one `_get_app_access_token` call: the cache
state afterwards, the returned token or the raised error, and whether the
credential-exchange network call was performed. -/
structure TokenResult where
  state : TokenState
  result : Except Unit String
  exchanged : Bool

/-- `_get_app_access_token` (lines 658-680). -/
def getAppAccessToken (now : ℚ) (exchange : Except Unit TokenPayload)
    (s : TokenState) : TokenResult :=
  if pyTruthyStr s.appAccessToken ∧ now < s.expiresAt then
    { state := s, result := .ok (s.appAccessToken.getD ""), exchanged := false }
  else
    match exchange with
    | .error _ => { state := s, result := .error (), exchanged := true }
    | .ok payload =>
        if pyTruthyStr payload.accessToken then
          let tok := payload.accessToken.getD ""
          { state := { appAccessToken := some tok,
                       expiresAt := now + ((max (payload.expiresIn - 60) 0 : Int) : ℚ) },
            result := .ok tok, exchanged := true }
        else
          { state := s, result := .error (), exchanged := true }

/-! ## Claim C3 -/

/-- C3: if a cached (non-empty) token exists and `now` is strictly before the
stored expiry (which already incorporates the 60-second safety margin), the
cached token is returned with no network call and the state unchanged;
otherwise the exchange is performed: on success the token is stored with
expiry `now + max(expires_in - 60, 0)` and returned, and on a failed exchange
the error propagates with the cached state unchanged, so the next call is
decided by the same cached state. -/
theorem c3_token_cache :
    ∀ (now : ℚ) (exchange : Except Unit TokenPayload) (s : TokenState),
      (∀ t, s.appAccessToken = some t → t ≠ "" → now < s.expiresAt →
          getAppAccessToken now exchange s
            = { state := s, result := .ok t, exchanged := false })
      ∧ (¬(pyTruthyStr s.appAccessToken ∧ now < s.expiresAt) →
          (getAppAccessToken now exchange s).exchanged = true
          ∧ (exchange = .error () →
              getAppAccessToken now exchange s
                = { state := s, result := .error (), exchanged := true })
          ∧ (∀ tok eIn, exchange = .ok { accessToken := some tok, expiresIn := eIn } →
              tok ≠ "" →
              getAppAccessToken now exchange s
                = { state := { appAccessToken := some tok,
                               expiresAt := now + ((max (eIn - 60) 0 : Int) : ℚ) },
                    result := .ok tok, exchanged := true })) := by
  intro now exchange s
  constructor
  · intro t ht hne hlt
    have htr : pyTruthyStr s.appAccessToken = true := by
      simp [pyTruthyStr, ht, hne]
    unfold getAppAccessToken
    rw [if_pos ⟨htr, hlt⟩]
    simp [ht]
  · intro hmiss
    unfold getAppAccessToken
    rw [if_neg hmiss]
    refine ⟨?_, ?_, ?_⟩
    · cases exchange with
      | error e => rfl
      | ok payload =>
          simp only []
          split <;> rfl
    · intro he
      subst he
      rfl
    · intro tok eIn he hne
      subst he
      simp [pyTruthyStr, hne]

/-- C3 witness: the three branches of `c3_token_cache` applied at concrete
times, payloads and cache states. -/
theorem c3_token_cache_witness :
    getAppAccessToken 10 (.error ()) { appAccessToken := some "tok", expiresAt := 100 }
      = { state := { appAccessToken := some "tok", expiresAt := 100 },
          result := .ok "tok", exchanged := false }
    ∧ getAppAccessToken 10 (.ok { accessToken := some "fresh", expiresIn := 3600 })
        { appAccessToken := none, expiresAt := 0 }
      = { state := { appAccessToken := some "fresh",
                     expiresAt := 10 + ((max (3600 - 60) 0 : Int) : ℚ) },
          result := .ok "fresh", exchanged := true }
    ∧ getAppAccessToken 10 (.error ()) { appAccessToken := none, expiresAt := 0 }
      = { state := { appAccessToken := none, expiresAt := 0 },
          result := .error (), exchanged := true } := by
  refine ⟨?_, ?_, ?_⟩
  · exact (c3_token_cache 10 (.error ())
      { appAccessToken := some "tok", expiresAt := 100 }).1 "tok" rfl
      (by decide) (by norm_num)
  · exact ((c3_token_cache 10 (.ok { accessToken := some "fresh", expiresIn := 3600 })
      { appAccessToken := none, expiresAt := 0 }).2
      (by simp [pyTruthyStr])).2.2 "fresh" 3600 rfl (by decide)
  · exact ((c3_token_cache 10 (.error ())
      { appAccessToken := none, expiresAt := 0 }).2
      (by simp [pyTruthyStr])).2.1 rfl

/-! ## Python string operations used by the emote pipeline

Python `str.split` (single-character separator, no maxsplit),
`str.split(sep, 1)`, `int(...)`, slicing `s[a:b]` (codepoint-indexed,
clamped, negative indices counted from the end), and `sep.join`. -/

/-- Python `s.split(sep)` for a one-character separator: keeps empty parts,
`"".split(sep) == [""]`. -/
def splitOnChar (sep : Char) : List Char → List (List Char)
  | [] => [[]]
  | c :: rest =>
      match splitOnChar sep rest with
      | [] => [[]]
      | g :: gs => if c = sep then [] :: g :: gs else (c :: g) :: gs

/-- Python `s.split(sep, 1)` when `sep` occurs: the part before the first
occurrence and everything after it; `none` when `sep` does not occur. -/
def splitFirst (sep : Char) : List Char → Option (List Char × List Char)
  | [] => none
  | c :: rest =>
      if c = sep then some ([], rest)
      else
        match splitFirst sep rest with
        | none => none
        | some (a, b) => some (c :: a, b)

/-- Python `int(str)` for the inputs that occur in emote tags: optional
surrounding whitespace, an optional sign, then decimal ASCII digits;
anything else raises ValueError (`none`). PEP-515 underscore grouping and
non-ASCII digits are not modelled. -/
def pyInt (cs : List Char) : Option Int :=
  let cs := cs.dropWhile Char.isWhitespace
  let cs := (cs.reverse.dropWhile Char.isWhitespace).reverse
  match cs with
  | [] => none
  | c :: rest =>
      let signed : Bool × List Char :=
        if c = '-' then (true, rest)
        else if c = '+' then (false, rest)
        else (false, c :: rest)
      let digits := signed.2
      if digits.isEmpty then none
      else if digits.all Char.isDigit then
        let n : Nat := digits.foldl (fun acc d => acc * 10 + (d.toNat - 48)) 0
        some (if signed.1 then -(n : Int) else (n : Int))
      else none

/-- Python `s[a:b]` on the codepoint list: indices clamped to the length,
negative indices counted from the end. -/
def pySliceList (cs : List Char) (a b : Int) : List Char :=
  let n : Int := cs.length
  let lo := (if a < 0 then max (n + a) 0 else min a n).toNat
  let hi := (if b < 0 then max (n + b) 0 else min b n).toNat
  (cs.take hi).drop lo

/-- Python `sep.join(parts)`. -/
def joinSep (sep : String) : List String → String
  | [] => ""
  | [x] => x
  | x :: y :: xs => x ++ sep ++ joinSep sep (y :: xs)

/-! ## Emote-tag parsing (lines 70-85 and 509-524, identical in both places)

`"25:0-4/1902:6-10"`-style tags: groups separated by `/`, each
`id:pos1,pos2,...`, each position `start-end`. A group without a colon, a
position without a dash, and positions whose parts fail `int()` are skipped
(`continue`), not fatal. -/

/-- One `(start, end, emote_id)` entry. -/
abbrev EmoteEntry := Int × Int × String

/-- One position inside a group: `if "-" not in pos: continue`, then
`pos.split("-", 1)` and two `int()` calls under try/except ValueError. -/
def parsePosition (emoteId : String) (pos : List Char) : Option EmoteEntry :=
  match splitFirst '-' pos with
  | none => none
  | some (startPart, endPart) =>
      match pyInt startPart, pyInt endPart with
      | some a, some b => some (a, b, emoteId)
      | _, _ => none

/-- One group: `if not group or ":" not in group: continue`, then
`group.split(":", 1)` and the per-position loop. -/
def parseGroup (group : List Char) : List EmoteEntry :=
  if group.isEmpty || !group.contains ':' then []
  else
    match splitFirst ':' group with
    | none => []
    | some (idPart, positionsPart) =>
        ((splitOnChar ',' positionsPart).map (parsePosition (String.mk idPart))).reduceOption

/-- The full tag parse: `for group in emotes_tag.split("/")`. -/
def parseEmotesTag (tag : String) : List EmoteEntry :=
  ((splitOnChar '/' tag.toList).map parseGroup).flatten

/-- Stable insertion step for sorting entries by `start`: an element is
placed before the first entry with a strictly larger key, after entries with
an equal key. -/
def insertEntry (x : EmoteEntry) : List EmoteEntry → List EmoteEntry
  | [] => [x]
  | y :: ys => if x.1 < y.1 then x :: y :: ys else y :: insertEntry x ys

/-- Python `sorted(entries, key=lambda item: item[0])`: a stable sort by the
`start` component. -/
def sortEntries : List EmoteEntry → List EmoteEntry
  | [] => []
  | x :: xs => insertEntry x (sortEntries xs)

/-! ## `expand_twitch_emotes` (lines 66-100) -/

/-- `expand_twitch_emotes`: splice a CDN thumbnail URL after each tagged
emote name; returns the content unchanged for a falsy or entry-free tag. -/
def expandTwitchEmotes (content : String) (emotesTag : Option String) : String :=
  match emotesTag with
  | none => content
  | some tag =>
      if tag == "" then content
      else
        let entries := parseEmotesTag tag
        if entries.isEmpty then content
        else
          let cs := content.toList
          let step : (Int × List String) → EmoteEntry → (Int × List String) :=
            fun (cursor, parts) (start, stop, emoteId) =>
              let parts :=
                if cursor < start then parts ++ [String.mk (pySliceList cs cursor start)]
                else parts
              let name := String.mk (pySliceList cs start (stop + 1))
              let url := "https://static-cdn.jtvnw.net/emoticons/v2/" ++ emoteId
                ++ "/default/dark/1.0"
              (stop + 1, parts ++ [name ++ " " ++ url])
          let folded := (sortEntries entries).foldl step ((0 : Int), ([] : List String))
          let parts :=
            if folded.1 < (cs.length : Int) then
              folded.2 ++ [String.mk (pySliceList cs folded.1 cs.length)]
            else folded.2
          String.join parts

/-! ## Message formatting (lines 497-559)

`_format_message_with_emotes`, `_safe_text` and `_replace_custom_tokens`.
`escape_mentions` is a discord.py utility (external) and is a function
argument; `_ensure_discord_emoji` and `_get_cached_custom_emoji` perform
Discord/CDN calls and are passed as functions from (emote id, covered text)
resp. (token, url) to the emoji string they produce, `none` on failure. -/

/-- `_safe_text` (lines 542-544): the trusted channel "hikakin" is exempt
from mention-escaping. -/
def safeText (escapeM : String → String) (text channelName : String) : String :=
  if pyLower channelName == "hikakin" then text else escapeM text

/-- `_replace_custom_tokens` (lines 546-559): split on single spaces, replace
catalog tokens whose provisioning succeeds, escape everything else. -/
def replaceCustomTokens (customEmoji : String → String → Option String)
    (escapeM : String → String)
    (customEmotes : List (String × List (String × String)))
    (text channelName : String) : String :=
  let tokens := (splitOnChar ' ' text.toList).map String.mk
  let emoteMap := (customEmotes.lookup (pyLower channelName)).getD []
  let replaced := tokens.map fun token =>
    match emoteMap.lookup token with
    | some url =>
        if url == "" then safeText escapeM token channelName
        else
          match customEmoji token url with
          | some e => e
          | none => safeText escapeM token channelName
    | none => safeText escapeM token channelName
  joinSep " " replaced

/-- The per-span substitution of lines 531-535: the provisioned emoji when
`_ensure_discord_emoji` succeeds, the escaped original substring otherwise. -/
def spanBlock (ensureEmoji : String → String → Option String)
    (escapeM : String → String) (channelName emoteId name : String) : String :=
  match ensureEmoji emoteId name with
  | some e => e
  | none => safeText escapeM name channelName

/-- `_format_message_with_emotes`, guild-present path (lines 505-540): parse
the tag, sort the spans, walk the content left to right alternating the
token-level pass on inter-span text with the per-span substitution, then
prepend `"<display_name>: "`. -/
def formatMessageWithEmotes (ensureEmoji : String → String → Option String)
    (customEmoji : String → String → Option String)
    (escapeM : String → String)
    (customEmotes : List (String × List (String × String)))
    (relay : RelayMessage) : String :=
  let cs := relay.content.toList
  let entries :=
    match relay.emotesTag with
    | none => []
    | some tag => if tag == "" then [] else parseEmotesTag tag
  let step : (Int × List String) → EmoteEntry → (Int × List String) :=
    fun (cursor, parts) (start, stop, emoteId) =>
      let parts :=
        if cursor < start then
          parts ++ [replaceCustomTokens customEmoji escapeM customEmotes
            (String.mk (pySliceList cs cursor start)) relay.channelName]
        else parts
      let name := String.mk (pySliceList cs start (stop + 1))
      (stop + 1, parts ++ [spanBlock ensureEmoji escapeM relay.channelName emoteId name])
  let folded := (sortEntries entries).foldl step ((0 : Int), ([] : List String))
  let parts :=
    if folded.1 < (cs.length : Int) then
      folded.2 ++ [replaceCustomTokens customEmoji escapeM customEmotes
        (String.mk (pySliceList cs folded.1 cs.length)) relay.channelName]
    else folded.2
  relay.displayName ++ ": " ++ String.join parts

/-- `_format_message_with_emotes`, guild-absent early return
(lines 499-503). -/
def formatMessageNoGuild (escapeM : String → String) (relay : RelayMessage) : String :=
  relay.displayName ++ ": " ++ safeText escapeM relay.content relay.channelName

/-! ## Claim C7 -/

/-- The tag of the specification's worked example. -/
def c7Tag : String := "25:0-4/1902:6-10"

/-- The message of the specification's worked example. -/
def c7Relay : RelayMessage :=
  { displayName := "user", channelName := "hikakin",
    content := "Kappa LUL text", emotesTag := some c7Tag }

/-- A concrete provisioner that renders emote id `x` as `[x]`. -/
def c7Ensure : String → String → Option String :=
  fun emoteId _ => some ("[" ++ emoteId ++ "]")

/-- A token-level provisioner that always fails (empty catalog anyway). -/
def noCustomEmoji : String → String → Option String := fun _ _ => none

/-- The identity escape function; the example's channel is the trusted one,
so escaping is not applied to any block. -/
def idEscape : String → String := fun t => t

/-- A provisioner returning `a1` for the first span of the example and `a2`
for the second span, where the second span's covered text is the inclusive
slice `content[6:11] = "LUL t"`. -/
def c7EnsureWith (a1 a2 : String) : String → String → Option String :=
  fun emoteId name =>
    if emoteId == "25" && name == "Kappa" then some a1
    else if emoteId == "1902" && name == "LUL t" then some a2
    else none

/-- C7 counterexample: on tag `"25:0-4/1902:6-10"` and content
`"Kappa LUL text"` the spans parse as the claim says, but with 0-indexed
inclusive offsets the second span covers `content[6:11] = "LUL t"` (not
`"LUL"`), so the text after the spans is `"ext"`, not `" text"`: the
formatted output differs from the one the claim describes. -/
theorem c7_counterexample :
    parseEmotesTag c7Tag = [(0, 4, "25"), (6, 10, "1902")]
    ∧ String.mk (pySliceList c7Relay.content.toList 6 11) = "LUL t"
    ∧ formatMessageWithEmotes c7Ensure noCustomEmoji idEscape [] c7Relay
        = "user: [25] [1902]ext"
    ∧ formatMessageWithEmotes c7Ensure noCustomEmoji idEscape [] c7Relay
        ≠ "user: [25] [1902] text" := by
  refine ⟨rfl, rfl, rfl, by decide⟩

/-- C7 amended: tag `"25:0-4/1902:6-10"` parses to spans
`[(0,4,"25"),(6,10,"1902")]`, malformed groups and positions are skipped at
the smallest granularity without failing, and on content `"Kappa LUL text"`
substitution replaces the covered substrings `"Kappa"` and `"LUL t"` with
the provisioned assets while the inter-span text `" "` and the tail `"ext"`
pass through the token-level pass unchanged when the catalog has no
matches. -/
theorem c7_emote_example :
    ∀ a1 a2 : String,
      parseEmotesTag c7Tag = [(0, 4, "25"), (6, 10, "1902")]
      ∧ parseEmotesTag "25:0-4/bad/1902:6-10,x,oops-3,7-z"
          = [(0, 4, "25"), (6, 10, "1902")]
      ∧ formatMessageWithEmotes (c7EnsureWith a1 a2) noCustomEmoji idEscape [] c7Relay
          = "user" ++ ": " ++ String.join [a1, " ", a2, "ext"] := by
  intro a1 a2
  exact ⟨rfl, rfl, rfl⟩

/-! ## Custom asset provisioner and cache (lines 561-630)

`_get_cached_custom_emoji` and `_ensure_discord_emoji`. HTTP downloads are
modelled by `fetch : url → (status, body length)`; `guild.create_custom_emoji`
by `create : name → image bytes length → new emoji id or rejection`; the
guild's existing emoji list and the id cache are explicit arguments, and each
function returns the possibly-extended cache alongside its result. -/

/-- A Discord custom emoji as the bridge observes it: its id and name. -/
structure DiscordEmoji where
  id : Nat
  name : String
deriving DecidableEq, Repr

/-- `str(emoji)` for a static custom emoji. -/
def emojiStr (e : DiscordEmoji) : String :=
  "<:" ++ e.name ++ ":" ++ toString e.id ++ ">"

/-- The Discord custom-emoji size ceiling checked at line 615: 256 KiB. -/
def emojiSizeLimit : Nat := 256 * 1024

/-- The resolution candidates for a platform emote, in descending order
(lines 599-604): CDN variants 3.0, 2.0, 1.0. -/
def platformEmoteCandidates (emoteId : String) : List String :=
  ["https://static-cdn.jtvnw.net/emoticons/v2/" ++ emoteId ++ "/default/dark/3.0",
   "https://static-cdn.jtvnw.net/emoticons/v2/" ++ emoteId ++ "/default/dark/2.0",
   "https://static-cdn.jtvnw.net/emoticons/v2/" ++ emoteId ++ "/default/dark/1.0"]

/-- The candidate loop of lines 608-617: skip non-200 responses, take the
first body of at most 256 KiB, otherwise keep trying; `none` when the loop
ends without a hit. Returns the chosen body length. -/
def selectImageBytes (fetch : String → Nat × Nat) : List String → Option Nat
  | [] => none
  | url :: rest =>
      let r := fetch url
      if r.1 != 200 then selectImageBytes fetch rest
      else if r.2 ≤ emojiSizeLimit then some r.2
      else selectImageBytes fetch rest

/-- The candidate rule as the claim states it, from its words: the first
candidate that is both fetchable (any 2xx status) and within the ceiling. -/
def selectImageBytesClaimed (fetch : String → Nat × Nat) : List String → Option Nat
  | [] => none
  | url :: rest =>
      let r := fetch url
      if 200 ≤ r.1 ∧ r.1 ≤ 299 ∧ r.2 ≤ emojiSizeLimit then some r.2
      else selectImageBytesClaimed fetch rest

/-- `_get_cached_custom_emoji` (lines 561-573): cache hit with the emoji
still present wins; otherwise a name search `tw_<name.lower()>`, populating
the cache on success; `none` on miss. -/
def getCachedCustomEmoji (name url : String) (guildEmojis : List DiscordEmoji)
    (cache : List (String × Nat)) : Option String × List (String × Nat) :=
  let cacheKey := "custom:" ++ pyLower name ++ ":" ++ url
  let searched :=
    match guildEmojis.find? (fun e => e.name == "tw_" ++ pyLower name) with
    | some e => (some (emojiStr e), (cacheKey, e.id) :: cache)
    | none => (none, cache)
  match cache.lookup cacheKey with
  | some emojiId =>
      match guildEmojis.find? (fun e => e.id == emojiId) with
      | some e => (some (emojiStr e), cache)
      | none => searched
  | none => searched

/-- `_ensure_discord_emoji` (lines 575-630): cache lookup, then name search
(`tw_<emote_id>`, or `tw_<name.lower()>` for catalog emotes), then the
download-candidate loop, then asset creation; download exhaustion and
creation rejection both yield `none` with the cache unchanged. -/
def ensureDiscordEmoji (fetch : String → Nat × Nat)
    (create : String → Nat → Except Unit Nat)
    (emoteId emoteName : String)
    (guildEmojis : List DiscordEmoji)
    (imageUrl : Option String)
    (cache : List (String × Nat)) : Option String × List (String × Nat) :=
  let cacheKey :=
    match imageUrl with
    | none => emoteId
    | some url => "custom:" ++ pyLower emoteName ++ ":" ++ url
  let cached : Option String :=
    match cache.lookup cacheKey with
    | some emojiId => (guildEmojis.find? (fun e => e.id == emojiId)).map emojiStr
    | none => none
  match cached with
  | some s => (some s, cache)
  | none =>
      match guildEmojis.find? (fun e =>
          e.name == "tw_" ++ emoteId
          || (imageUrl.isSome && (e.name == "tw_" ++ pyLower emoteName))) with
      | some e => (some (emojiStr e), (cacheKey, e.id) :: cache)
      | none =>
          let candidates :=
            match imageUrl with
            | none => platformEmoteCandidates emoteId
            | some url => [url]
          match selectImageBytes fetch candidates with
          | none => (none, cache)
          | some imageBytes =>
              let safeName := "tw_" ++ pyLower emoteName
              match create safeName imageBytes with
              | .error _ => (none, cache)
              | .ok newId =>
                  (some (emojiStr { id := newId, name := safeName }),
                   (cacheKey, newId) :: cache)

/-! ## Claim C9 -/

/-- A fetch under which the first (largest) candidate for emote 25 answers
with a small body but status 206, and the second with status 200. -/
def c9Fetch : String → Nat × Nat := fun url =>
  if url == "https://static-cdn.jtvnw.net/emoticons/v2/25/default/dark/3.0" then (206, 10)
  else if url == "https://static-cdn.jtvnw.net/emoticons/v2/25/default/dark/2.0" then (200, 20)
  else (404, 0)

/-- C9 counterexample: the first candidate is fetchable with a 2xx status
(206) and is within the size ceiling, so under the claim's rule it would be
used (body of 10 bytes); the code however accepts only status exactly 200
and uses the second candidate (body of 20 bytes), as the created asset
shows. -/
theorem c9_counterexample :
    selectImageBytes c9Fetch (platformEmoteCandidates "25") = some 20
    ∧ selectImageBytesClaimed c9Fetch (platformEmoteCandidates "25") = some 10
    ∧ selectImageBytes c9Fetch (platformEmoteCandidates "25")
        ≠ selectImageBytesClaimed c9Fetch (platformEmoteCandidates "25")
    ∧ ensureDiscordEmoji c9Fetch (fun _ imageBytes => .ok imageBytes) "25" "Kappa" [] none []
        = (some (emojiStr { id := 20, name := "tw_kappa" }), [("25", 20)]) := by
  refine ⟨rfl, rfl, by decide, rfl⟩

/-- C9 amended: candidates are tried in descending order and the first
candidate that is fetchable with status exactly 200 and at most 256 KiB is
used (a `find?` over the ordered candidate list); if no candidate satisfies
both conditions, or asset creation is rejected, `_ensure_discord_emoji`
returns `none` with the cache unchanged (logged, never raised); and in the
formatter a `none` from the provisioner makes the span emit the escaped
original substring instead of the asset — never dropping it. -/
theorem c9_ensure_emoji :
    (∀ (fetch : String → Nat × Nat) (urls : List String),
        selectImageBytes fetch urls
          = (urls.find? (fun u =>
              ((fetch u).1 == 200) && decide ((fetch u).2 ≤ emojiSizeLimit))).map
              (fun u => (fetch u).2))
    ∧ (∀ (fetch : String → Nat × Nat) (create : String → Nat → Except Unit Nat)
          (emoteId emoteName : String) (cache : List (String × Nat)),
        selectImageBytes fetch (platformEmoteCandidates emoteId) = none →
        ensureDiscordEmoji fetch create emoteId emoteName [] none cache = (none, cache))
    ∧ (∀ (fetch : String → Nat × Nat) (create : String → Nat → Except Unit Nat)
          (emoteId emoteName : String) (cache : List (String × Nat)) (imageBytes : Nat),
        selectImageBytes fetch (platformEmoteCandidates emoteId) = some imageBytes →
        create ("tw_" ++ pyLower emoteName) imageBytes = .error () →
        ensureDiscordEmoji fetch create emoteId emoteName [] none cache = (none, cache))
    ∧ (∀ (ensure : String → String → Option String) (escapeM : String → String)
          (channelName emoteId name : String),
        ensure emoteId name = none →
        spanBlock ensure escapeM channelName emoteId name
          = safeText escapeM name channelName) := by
  refine ⟨?_, ?_, ?_, ?_⟩
  · intro fetch urls
    induction urls with
    | nil => rfl
    | cons u rest ih =>
        simp only [selectImageBytes, List.find?]
        by_cases h1 : (fetch u).1 = 200
        · by_cases h2 : (fetch u).2 ≤ emojiSizeLimit
          · simp [h1, h2, bne]
          · simp [h1, h2, bne, ih]
        · have hb : ((fetch u).1 == 200) = false := by simp [h1]
          simp [hb, bne, ih]
  · intro fetch create emoteId emoteName cache hsel
    cases hlk : cache.lookup emoteId with
    | none => simp [ensureDiscordEmoji, hlk, hsel]
    | some emojiId => simp [ensureDiscordEmoji, hlk, hsel]
  · intro fetch create emoteId emoteName cache imageBytes hsel hcr
    cases hlk : cache.lookup emoteId with
    | none => simp [ensureDiscordEmoji, hlk, hsel, hcr]
    | some emojiId => simp [ensureDiscordEmoji, hlk, hsel, hcr]
  · intro ensure escapeM channelName emoteId name h
    simp [spanBlock, h]

/-- C9 witness: the hypothesis-bearing conjuncts of `c9_ensure_emoji`
applied at concrete fetch/create functions: exhausted candidates, a rejected
creation, and a failed provisioning inside the formatter. -/
theorem c9_ensure_emoji_witness :
    ensureDiscordEmoji (fun _ => (404, 0)) (fun _ imageBytes => .ok imageBytes)
        "25" "Kappa" [] none [] = (none, [])
    ∧ ensureDiscordEmoji c9Fetch (fun _ _ => .error ()) "25" "Kappa" [] none []
        = (none, [])
    ∧ spanBlock noCustomEmoji idEscape "hikakin" "25" "Kappa"
        = safeText idEscape "Kappa" "hikakin" := by
  refine ⟨?_, ?_, ?_⟩
  · exact c9_ensure_emoji.2.1 (fun _ => (404, 0)) (fun _ imageBytes => .ok imageBytes)
      "25" "Kappa" [] rfl
  · exact c9_ensure_emoji.2.2.1 c9Fetch (fun _ _ => .error ()) "25" "Kappa" [] 20 rfl rfl
  · exact c9_ensure_emoji.2.2.2 noCustomEmoji idEscape "hikakin" "25" "Kappa" rfl

end TwitchBridge
